import Mathlib

/-!
Verification of the FinaiFlow identity core: a shallow embedding of the
authentication, token-lifecycle, TOTP, OAuth federation and passwordless
services (`app/services/*.py`, `app/core/security.py`, `app/models/*.py`)
together with proofs of the behavioural properties stated for them.

Modelling conventions:
* `datetime.utcnow()` is an ambient integer clock passed as a `now` parameter.
* The SQLAlchemy session is explicit state: each operation maps the database
  value to an updated database value together with its result; a raised
  exception is an `Except.error` carrying the exception class and message.
* External cryptographic primitives (bcrypt verification, pyotp code
  derivation) are oracle functions passed in as parameters; sha256 token
  hashing is collision-free in the model, so a stored hash is represented by
  the raw token it determines; Fernet encryption and JSON serialisation are
  inverted by the services right after reading, so the round-trip is modelled
  as the identity.
-/

set_option maxHeartbeats 1000000

namespace FinaiFlow

/-- Timestamps (`datetime.utcnow()`), as an integer number of seconds. -/
abbrev Time := Int

/-- The exception taxonomy of `app/core/exceptions.py`, restricted to the
classes the modelled services raise; each carries its message string. -/
inductive AppError where
  | authError (message : String)
  | validationError (message : String)
  | notFoundError (message : String)
  | externalServiceError (message : String)
deriving DecidableEq, BEq

instance {ε α : Type} [DecidableEq ε] [DecidableEq α] : DecidableEq (Except ε α) := fun a b =>
  match a, b with
  | .error e₁, .error e₂ =>
    if h : e₁ = e₂ then .isTrue (by rw [h])
    else .isFalse (fun hc => h (Except.error.inj hc))
  | .ok x, .ok y =>
    if h : x = y then .isTrue (by rw [h])
    else .isFalse (fun hc => h (Except.ok.inj hc))
  | .error _, .ok _ => .isFalse (fun hc => Except.noConfusion hc)
  | .ok _, .error _ => .isFalse (fun hc => Except.noConfusion hc)

/-- Python `str(x)` applied to an optional string: `str(None)` is `"None"`. -/
def pyStr : Option String → String
  | none => "None"
  | some s => s

/-- Python truthiness test `not x` for an optional string:
`None` and the empty string are falsy. -/
def optFalsy : Option String → Bool
  | none => true
  | some s => s == ""

/-- `dict.get` with default `""`: a missing optional string read as `""`. -/
def optStr : Option String → String
  | none => ""
  | some s => s

/-- Python `a or b` over strings (first operand wins unless falsy). -/
def pyOr (a b : String) : String := if a == "" then b else a

/-- Python `a or b` over optional strings. -/
def pyOrOpt (a b : Option String) : Option String := if optFalsy a then b else a

/-! ## Signed tokens (`app/core/security.py`, `SecurityManager`) -/

/-- The JWT claim set the services read: `sub`, `type`, `exp`.  The remaining
claims written by `create_access_token` (email, tenant id, role flags) are
carried unmodified and never branched on, so they are elided. -/
structure Payload where
  sub : Option String
  type : String
  exp : Time
deriving DecidableEq, BEq

/-- A raw bearer token string: either a JWT correctly signed with the server
key (represented by its decoded claims) or a malformed/forged string that
fails signature verification. -/
inductive RawToken where
  | signed (payload : Payload)
  | malformed (text : String)
deriving DecidableEq, BEq

/-- The two failure classes `jwt.decode` raises. -/
inductive JwtError where
  | expiredSignature
  | jwtError
deriving DecidableEq, BEq

/-- `jwt.decode(token, key, algorithms)`: signature check first, then the
`exp` claim (an `exp` at or before `now` raises `ExpiredSignatureError`). -/
def jwtDecode (token : RawToken) (now : Time) : Except JwtError Payload :=
  match token with
  | .malformed _ => .error .jwtError
  | .signed p => if p.exp ≤ now then .error .expiredSignature else .ok p

/-- `SecurityManager.verify_token`: decode, then check the `type` claim; the
three failures carry distinct messages on the same exception class. -/
def verify_token (token : RawToken) (tokenType : String) (now : Time) :
    Except AppError Payload :=
  match jwtDecode token now with
  | .error .expiredSignature => .error (.authError "Token has expired")
  | .error .jwtError => .error (.authError "Invalid token")
  | .ok payload =>
    if payload.type != tokenType then .error (.authError "Invalid token type")
    else .ok payload

/-- `settings.ACCESS_TOKEN_EXPIRE_MINUTES` (default 30). -/
def access_token_expire : Int := 30

/-- `settings.REFRESH_TOKEN_EXPIRE_DAYS` (default 7). -/
def refresh_token_expire : Int := 7

/-- `SecurityManager.create_access_token` with the default TTL: a signed
token of type `access` expiring `ACCESS_TOKEN_EXPIRE_MINUTES` from now. -/
def create_access_token (sub : Option String) (now : Time) : RawToken :=
  .signed { sub := sub, type := "access", exp := now + access_token_expire * 60 }

/-- `SecurityManager.create_refresh_token` with the default TTL. -/
def create_refresh_token (sub : Option String) (now : Time) : RawToken :=
  .signed { sub := sub, type := "refresh",
            exp := now + refresh_token_expire * 24 * 60 * 60 }

/-! ## Principals and stored tokens (`app/models/user.py`, `app/models/auth.py`) -/

/-- A `users` row, restricted to the fields the modelled services read; the
profile columns (names, avatar, phone, locale) are elided. -/
structure User where
  id : String
  email : String
  tenantId : String
  hashedPassword : Option String := none
  isActive : Bool := true
  isSuperuser : Bool := false
  isTenantAdmin : Bool := false
  isEmailVerified : Bool := false
  failedLoginAttempts : Nat := 0
  lockedUntil : Option Time := none
deriving DecidableEq, BEq

/-- `User.verify_password`: `False` when no hash is stored, otherwise bcrypt
verification; `vp plain hash` is the external `pwd_context.verify`. -/
def User.verify_password (vp : String → String → Bool) (u : User)
    (password : String) : Bool :=
  match u.hashedPassword with
  | none => false
  | some h => vp password h

/-- The `if user.locked_until and user.locked_until > datetime.utcnow()`
guard of `authenticate_user`. -/
def lockActive (u : User) (now : Time) : Bool :=
  match u.lockedUntil with
  | some t => t > now
  | none => false

/-- An `auth_tokens` row.  `tokenHash` stores `sha256(raw)`; sha256 is
collision-free in the model, so the hash is represented by the raw token it
determines and hash comparison is raw-token equality. -/
structure AuthToken where
  id : String
  tokenType : String
  tokenHash : RawToken
  expiresAt : Time
  isRevoked : Bool := false
  userId : String
  lastUsedAt : Option Time := none
deriving DecidableEq, BEq

/-- `AuthToken.is_expired`: `datetime.utcnow() > expires_at`. -/
def AuthToken.is_expired (t : AuthToken) (now : Time) : Bool :=
  now > t.expiresAt

/-- `AuthToken.is_valid`: `not (is_revoked or is_expired)`. -/
def AuthToken.is_valid (t : AuthToken) (now : Time) : Bool :=
  !(t.isRevoked || t.is_expired now)

/-- The database state the auth service reads and commits. -/
structure AuthDB where
  users : List User
  tokens : List AuthToken
deriving DecidableEq, BEq

/-- `select(User).where(User.email == email)` with `scalar_one_or_none`. -/
def findUserByEmail (users : List User) (email : String) : Option User :=
  users.find? (fun u => u.email == email)

/-- `select(User).where(User.id == id)` / `db.get(User, id)`. -/
def findUserById (users : List User) (id : String) : Option User :=
  users.find? (fun u => u.id == id)

/-! ## `AuthService` (`app/services/auth_service.py`) -/

/-- `AuthService.authenticate_user`: returns the committed database state and
the outcome.  On a password mismatch the failed-attempt counter is committed
(and the lockout set at the threshold of 5) before the error is raised. -/
def authenticate_user (vp : String → String → Bool) (db : AuthDB)
    (email password : String) (now : Time) : AuthDB × Except AppError User :=
  match findUserByEmail db.users email with
  | none => (db, .error (.authError "Invalid credentials"))
  | some user =>
    if lockActive user now then
      (db, .error (.authError "Account is temporarily locked"))
    else if !(user.verify_password vp password) then
      let u1 : User :=
        { user with failedLoginAttempts := user.failedLoginAttempts + 1 }
      let u2 : User :=
        if u1.failedLoginAttempts ≥ 5 then
          { u1 with lockedUntil := some (now + 30 * 60) }
        else u1
      ({ db with users := db.users.map (fun w => if w.id == user.id then u2 else w) },
       .error (.authError "Invalid credentials"))
    else
      let u2 : User := { user with failedLoginAttempts := 0, lockedUntil := none }
      ({ db with users := db.users.map (fun w => if w.id == user.id then u2 else w) },
       .ok u2)

/-- The response record `AuthService` returns (`schemas/auth.py.TokenResponse`). -/
structure TokenResponse where
  accessToken : RawToken
  refreshToken : RawToken
  tokenType : String := "bearer"
  expiresIn : Int
deriving DecidableEq, BEq

/-- The stored-refresh-token lookup of `refresh_access_token`:
`token_hash == hash(raw) AND token_type == "refresh" AND is_revoked == False`. -/
def refreshLookup (tokens : List AuthToken) (raw : RawToken) : Option AuthToken :=
  tokens.find? (fun t => t.tokenHash == raw && t.tokenType == "refresh" && !t.isRevoked)

/-- The body of `AuthService.refresh_access_token` inside its `try` block,
with each raise carrying its original message. -/
def refresh_attempt (db : AuthDB) (refreshToken : RawToken) (now : Time) :
    AuthDB × Except AppError TokenResponse :=
  match verify_token refreshToken "refresh" now with
  | .error e => (db, .error e)
  | .ok payload =>
    if optFalsy payload.sub then (db, .error (.authError "Invalid token payload"))
    else
      match refreshLookup db.tokens refreshToken with
      | none => (db, .error (.authError "Invalid or expired refresh token"))
      | some dbToken =>
        if dbToken.is_expired now then
          (db, .error (.authError "Invalid or expired refresh token"))
        else
          match findUserById db.users (pyStr payload.sub) with
          | none => (db, .error (.authError "User not found or inactive"))
          | some user =>
            if !user.isActive then
              (db, .error (.authError "User not found or inactive"))
            else
              let tok' := { dbToken with lastUsedAt := some now }
              ({ db with tokens := db.tokens.map (fun t =>
                   if t.id == dbToken.id then tok' else t) },
               .ok { accessToken := create_access_token (some user.id) now,
                     refreshToken := refreshToken,
                     expiresIn := access_token_expire * 60 })

/-- `AuthService.refresh_access_token`: the catch-all `except` turns every
failure into `AuthenticationError("Token refresh failed")` and rolls the
uncommitted session back. -/
def refresh_access_token (db : AuthDB) (refreshToken : RawToken) (now : Time) :
    AuthDB × Except AppError TokenResponse :=
  match refresh_attempt db refreshToken now with
  | (db', .ok resp) => (db', .ok resp)
  | (_, .error _) => (db, .error (.authError "Token refresh failed"))

/-- `AuthService.revoke_token`.  `commitOk` injects a storage fault at the
commit: the surrounding `try/except` logs the exception and returns `False`,
leaving the mutation uncommitted. -/
def revoke_token (db : AuthDB) (commitOk : Bool) (raw : RawToken)
    (userId : String) : AuthDB × Bool :=
  match db.tokens.find? (fun t => t.tokenHash == raw && t.userId == userId &&
          t.tokenType == "refresh") with
  | some dbToken =>
    if commitOk then
      ({ db with tokens := db.tokens.map (fun t =>
           if t.id == dbToken.id then { dbToken with isRevoked := true } else t) },
       true)
    else (db, false)
  | none => (db, false)

/-- `AuthService.revoke_all_user_tokens`.  `commitOk` injects a storage fault
at the commit: the `try/except` logs the exception and returns `0`. -/
def revoke_all_user_tokens (db : AuthDB) (commitOk : Bool) (userId : String) :
    AuthDB × Nat :=
  let sel := db.tokens.filter (fun t => t.userId == userId &&
      t.tokenType == "refresh" && !t.isRevoked)
  if commitOk then
    ({ db with tokens := db.tokens.map (fun t =>
         if t.userId == userId && t.tokenType == "refresh" && !t.isRevoked
         then { t with isRevoked := true } else t) },
     sel.length)
  else (db, 0)

/-! ## `PasswordlessService` (`app/services/passwordless_service.py`) -/

/-- The payload stored in Redis under a magic-link key. -/
structure MagicLinkData where
  userId : String
  email : String
  ipAddress : String
deriving DecidableEq, BEq

/-- The Secret Cache as a key/value association; a key past its TTL is
absent, so `get` on an expired entry already returns `none`. -/
abbrev Cache := List (String × MagicLinkData)

/-- `cache.get key`. -/
def cacheGet (c : Cache) (key : String) : Option MagicLinkData :=
  (c.find? (fun kv => kv.1 == key)).map (fun kv => kv.2)

/-- `cache.delete key`. -/
def cacheDelete (c : Cache) (key : String) : Cache :=
  c.filter (fun kv => kv.1 != key)

/-- The cache key of a magic-link token. -/
def magicKey (token : String) : String := "magic_link:" ++ token

/-- `PasswordlessService.verify_magic_link` run to completion with no
interleaving.  The inner raises carry distinct messages, but the catch-all
`except` re-raises every failure as
`AuthenticationError("Invalid or expired magic link")`, which is the message
modelled on each error path. -/
def verify_magic_link (c : Cache) (users : List User) (token : String) :
    Cache × Except AppError User :=
  match cacheGet c (magicKey token) with
  | none => (c, .error (.authError "Invalid or expired magic link"))
  | some tokenData =>
    match findUserById users tokenData.userId with
    | none => (c, .error (.authError "Invalid or expired magic link"))
    | some user =>
      if !user.isActive then (c, .error (.authError "Invalid or expired magic link"))
      else (cacheDelete c (magicKey token), .ok user)

/-- The control point of one in-flight `verify_magic_link` call between its
atomic cache operations. -/
inductive RedeemPhase where
  | start
  | readDone (data : Option MagicLinkData)
  | finished (result : Except AppError User)

/-- One atomic step of `verify_magic_link`: the first step is the awaited
`cache.get`; the second step is the rest of the body (principal check and,
on success, the awaited `cache.delete`). -/
def redeemStep (users : List User) (token : String) (c : Cache) :
    RedeemPhase → Cache × RedeemPhase
  | .start => (c, .readDone (cacheGet c (magicKey token)))
  | .readDone none =>
    (c, .finished (.error (.authError "Invalid or expired magic link")))
  | .readDone (some tokenData) =>
    match findUserById users tokenData.userId with
    | none => (c, .finished (.error (.authError "Invalid or expired magic link")))
    | some user =>
      if !user.isActive then
        (c, .finished (.error (.authError "Invalid or expired magic link")))
      else (cacheDelete c (magicKey token), .finished (.ok user))
  | .finished r => (c, .finished r)

/-- Two concurrent redemptions of the same token, interleaved by a schedule
(`true` steps the first call, `false` the second). -/
def runSchedule (users : List User) (token : String) :
    List Bool → Cache → RedeemPhase → RedeemPhase →
    Cache × RedeemPhase × RedeemPhase
  | [], c, a, b => (c, a, b)
  | true :: rest, c, a, b =>
    let s := redeemStep users token c a
    runSchedule users token rest s.1 s.2 b
  | false :: rest, c, a, b =>
    let s := redeemStep users token c b
    runSchedule users token rest s.1 a s.2

/-! ## `TOTPService` (`app/services/totp_service.py`) -/

/-- A `two_factor_auth` row.  `secret_key` and `backup_codes` are stored
Fernet-encrypted (the codes additionally JSON-serialised); every reader
decrypts/parses immediately, so the round-trip is modelled as the identity
and the fields hold the plain values. -/
structure TwoFactorAuth where
  userId : String
  secretKey : String
  backupCodes : List String
  isEnabled : Bool := false
  lastUsedAt : Option Time := none
deriving DecidableEq, BEq

/-- `TOTPService.verify_totp_code` over pyotp: `otp secret step` is the code
pyotp derives for `secret` at a 30-second time step, and
`totp.verify(code, valid_window := w)` accepts the codes of steps
`step - w .. step + w`. -/
def verify_totp_code (otp : String → Int → String) (secretKey code : String)
    (step : Int) (window : Nat := 1) : Bool :=
  (List.range (2 * window + 1)).any
    (fun j => otp secretKey (step + (j : Int) - (window : Int)) == code)

/-- Python `str.upper()` (ASCII model, enough for the hex backup codes). -/
def pyUpper (s : String) : String := ⟨s.data.map Char.toUpper⟩

/-- Python `str.strip()`: drop whitespace from both ends. -/
def pyStrip (s : String) : String :=
  ⟨((s.data.dropWhile Char.isWhitespace).reverse.dropWhile Char.isWhitespace).reverse⟩

/-- `TOTPService.verify_backup_code`: normalise with `.upper().strip()`,
then remove every copy of a matching code. -/
def verify_backup_code (backupCodes : List String) (code : String) :
    Bool × List String :=
  let codeUpper := pyStrip (pyUpper code)
  if backupCodes.contains codeUpper then
    (true, backupCodes.filter (fun c => c != codeUpper))
  else (false, backupCodes)

/-- `select(TwoFactorAuth).where(user_id == userId)`; the `user_id` column is
unique, modelled by first-match lookup plus by-user update. -/
def find2fa (db : List TwoFactorAuth) (userId : String) : Option TwoFactorAuth :=
  db.find? (fun r => r.userId == userId)

/-- The login-side lookup: `user_id == userId AND is_enabled == True`. -/
def find2faEnabled (db : List TwoFactorAuth) (userId : String) :
    Option TwoFactorAuth :=
  db.find? (fun r => r.userId == userId && r.isEnabled)

/-- Committing a mutated `two_factor_auth` row (keyed by its unique
`user_id`). -/
def update2fa (db : List TwoFactorAuth) (row : TwoFactorAuth) :
    List TwoFactorAuth :=
  db.map (fun x => if x.userId == row.userId then row else x)

/-- `TOTPService.setup_2fa`: overwrite or create the row with a fresh secret
and backup codes (passed in, as the generated randomness) and
`is_enabled := False`; the QR-code rendering is elided. -/
def setup_2fa (users : List User) (db : List TwoFactorAuth) (userId : String)
    (secretKey : String) (backupCodes : List String) :
    List TwoFactorAuth × Except AppError (String × List String) :=
  match findUserById users userId with
  | none => (db, .error (.notFoundError "User not found"))
  | some _ =>
    match find2fa db userId with
    | some existing =>
      let row := { existing with secretKey := secretKey, backupCodes := backupCodes, isEnabled := false }
      (update2fa db row, .ok (secretKey, backupCodes))
    | none =>
      let row : TwoFactorAuth := { userId := userId, secretKey := secretKey, backupCodes := backupCodes, isEnabled := false }
      (db ++ [row], .ok (secretKey, backupCodes))

/-- `TOTPService.verify_2fa_setup`: enable on a verifying code, otherwise
return `False` with no commit. -/
def verify_2fa_setup (otp : String → Int → String) (db : List TwoFactorAuth)
    (userId code : String) (step : Int) :
    List TwoFactorAuth × Except AppError Bool :=
  match find2fa db userId with
  | none => (db, .error (.notFoundError "2FA setup not found"))
  | some tfa =>
    if verify_totp_code otp tfa.secretKey code step then
      (update2fa db { tfa with isEnabled := true }, .ok true)
    else (db, .ok false)

/-- `TOTPService.disable_2fa`: requires an enabled row and a valid TOTP or
backup code; only `is_enabled` is written — the backup-code list produced by
`verify_backup_code` is discarded. -/
def disable_2fa (otp : String → Int → String) (db : List TwoFactorAuth)
    (userId code : String) (step : Int) : List TwoFactorAuth × Bool :=
  match find2fa db userId with
  | none => (db, false)
  | some tfa =>
    if !tfa.isEnabled then (db, false)
    else
      let isValidTotp := verify_totp_code otp tfa.secretKey code step
      let backupResult := verify_backup_code tfa.backupCodes code
      if isValidTotp || backupResult.1 then
        (update2fa db { tfa with isEnabled := false }, true)
      else (db, false)

/-- `TOTPService.verify_2fa_login`: TOTP first; on failure consume one backup
code, committing the shrunken list; either success path updates
`last_used_at`. -/
def verify_2fa_login (otp : String → Int → String) (db : List TwoFactorAuth)
    (userId code : String) (step : Int) (now : Time) :
    List TwoFactorAuth × Bool :=
  match find2faEnabled db userId with
  | none => (db, false)
  | some tfa =>
    if verify_totp_code otp tfa.secretKey code step then
      (update2fa db { tfa with lastUsedAt := some now }, true)
    else
      let backupResult := verify_backup_code tfa.backupCodes code
      if backupResult.1 then
        let row := { tfa with backupCodes := backupResult.2, lastUsedAt := some now }
        (update2fa db row, true)
      else (db, false)

/-- `TOTPService.regenerate_backup_codes`: requires an enabled row and a
valid TOTP code (never a backup code); replaces the backup-code list. -/
def regenerate_backup_codes (otp : String → Int → String)
    (db : List TwoFactorAuth) (userId code : String) (step : Int)
    (newCodes : List String) : List TwoFactorAuth × Option (List String) :=
  match find2faEnabled db userId with
  | none => (db, none)
  | some tfa =>
    if !(verify_totp_code otp tfa.secretKey code step) then (db, none)
    else (update2fa db { tfa with backupCodes := newCodes }, some newCodes)

/-! ## `OAuth2Service` (`app/services/oauth_service.py`) -/

/-- An `oauth2_accounts` row; `provider_data` (a JSON dump) is elided. -/
structure OAuth2Account where
  id : String
  provider : String
  providerUserId : String
  providerEmail : Option String := none
  providerUsername : Option String := none
  accessToken : Option String := none
  refreshToken : Option String := none
  expiresAt : Option Time := none
  userId : String
deriving DecidableEq, BEq

/-- A `tenants` row, restricted to what `authenticate_with_code` reads. -/
structure Tenant where
  id : String
  isActive : Bool := true
deriving DecidableEq, BEq

/-- The database state the OAuth service reads and commits. -/
structure OAuthDB where
  users : List User
  accounts : List OAuth2Account
  tenants : List Tenant
deriving DecidableEq, BEq

/-- The provider's token response (`provider.exchange_code` result). -/
structure ProviderTokens where
  accessToken : Option String := none
  refreshToken : Option String := none
  expiresIn : Option Int := none
deriving DecidableEq, BEq

/-- The provider's user-info response (`provider.get_user_info` result);
numeric subject ids arrive as their decimal string. -/
structure UserInfo where
  idField : Option String := none
  email : Option String := none
  name : Option String := none
  givenName : Option String := none
  familyName : Option String := none
  login : Option String := none
  username : Option String := none
  avatarUrl : Option String := none
  picture : Option String := none
deriving DecidableEq, BEq

/-- `select(OAuth2Account).where(provider == p, provider_user_id == uid)`. -/
def pairLookup (accounts : List OAuth2Account) (providerName puid : String) :
    Option OAuth2Account :=
  accounts.find? (fun a => a.provider == providerName && a.providerUserId == puid)

/-- `user_info.get('given_name') or user_info.get('name','').split(' ')[0] or 'User'`. -/
def extractFirstName (info : UserInfo) : String :=
  pyOr (optStr info.givenName)
    (pyOr (((optStr info.name).splitOn " ").headD "") "User")

/-- `user_info.get('family_name') or ' '.join(user_info.get('name','').split(' ')[1:]) or 'Name'`. -/
def extractLastName (info : UserInfo) : String :=
  pyOr (optStr info.familyName)
    (pyOr (String.intercalate " " ((optStr info.name).splitOn " ").tail) "Name")

/-- `OAuth2Service.authenticate_with_code`, after the external code exchange
and user-info fetch (`tokens` and `info` are the collaborator responses;
transport failures raise `ExternalServiceError` before this body runs).
`newUserId`/`newAccountId` are the generated primary keys for created rows.
Note the subject id is read as `str(user_info.get('id'))`, so a missing id
becomes the truthy string `"None"`. -/
def authenticate_with_code (db : OAuthDB) (providerName : String)
    (tokens : ProviderTokens) (info : UserInfo) (tenantId : String)
    (now : Time) (newUserId newAccountId : String) :
    OAuthDB × Except AppError User :=
  if optFalsy tokens.accessToken then
    (db, .error (.authError "Failed to obtain access token"))
  else
    let providerUserId := pyStr info.idField
    if providerUserId == "" || optFalsy info.email then
      (db, .error (.authError "Incomplete user information from provider"))
    else
      let email := optStr info.email
      match pairLookup db.accounts providerName providerUserId with
      | some oauthAccount =>
        let updated :=
          { oauthAccount with
            accessToken := tokens.accessToken
            refreshToken := tokens.refreshToken
            expiresAt := match tokens.expiresIn with
              | some secs => some (now + secs)
              | none => oauthAccount.expiresAt }
        match findUserById db.users oauthAccount.userId with
        | none => (db, .error (.authError "User account is inactive"))
        | some user =>
          if !user.isActive then (db, .error (.authError "User account is inactive"))
          else
            ({ db with accounts := db.accounts.map (fun a =>
                 if a.id == oauthAccount.id then updated else a) },
             .ok user)
      | none =>
        match findUserByEmail db.users email with
        | some user =>
          let newAccount : OAuth2Account :=
            { id := newAccountId
              provider := providerName
              providerUserId := providerUserId
              providerEmail := some email
              providerUsername := pyOrOpt info.login info.username
              accessToken := tokens.accessToken
              refreshToken := tokens.refreshToken
              expiresAt := tokens.expiresIn.map (fun secs => now + secs)
              userId := user.id }
          ({ db with accounts := db.accounts ++ [newAccount] }, .ok user)
        | none =>
          match db.tenants.find? (fun t => t.id == tenantId) with
          | none => (db, .error (.authError "Invalid tenant"))
          | some tenant =>
            if !tenant.isActive then (db, .error (.authError "Invalid tenant"))
            else
              let newUser : User :=
                { id := newUserId
                  email := email
                  tenantId := tenantId
                  hashedPassword := none
                  isEmailVerified := true }
              let newAccount : OAuth2Account :=
                { id := newAccountId
                  provider := providerName
                  providerUserId := providerUserId
                  providerEmail := some email
                  providerUsername := pyOrOpt info.login info.username
                  accessToken := tokens.accessToken
                  refreshToken := tokens.refreshToken
                  expiresAt := tokens.expiresIn.map (fun secs => now + secs)
                  userId := newUserId }
              ({ db with users := db.users ++ [newUser],
                         accounts := db.accounts ++ [newAccount] },
               .ok newUser)

/-! ## Concrete states used to instantiate the theorems -/

/-- A bcrypt oracle for concrete instances: the hash of `p` is `"hash:" ++ p`. -/
def cVp : String → String → Bool := fun p h => h == "hash:" ++ p

/-- A pyotp oracle for concrete instances: the code of secret `s` at step `t`
is `s ++ toString t`. -/
def cOtp : String → Int → String := fun s t => s ++ toString t

def cUser1 : User :=
  { id := "u1", email := "a@x.com", tenantId := "t1",
    hashedPassword := some "hash:pw", failedLoginAttempts := 4 }

def cDB1 : AuthDB := { users := [cUser1], tokens := [] }

def cRefreshPayload : Payload := { sub := some "u1", type := "refresh", exp := 100000 }

def cRefreshTok : RawToken := .signed cRefreshPayload

def cStoredTok : AuthToken :=
  { id := "tk1", tokenType := "refresh", tokenHash := cRefreshTok,
    expiresAt := 100000, userId := "u1" }

def cDB2 : AuthDB := { users := [cUser1], tokens := [cStoredTok] }

def cStoredTokRevoked : AuthToken := { cStoredTok with isRevoked := true }

def cDB2r : AuthDB := { users := [cUser1], tokens := [cStoredTokRevoked] }

def cStoredTokStale : AuthToken := { cStoredTok with expiresAt := 10 }

def cDB2s : AuthDB := { users := [cUser1], tokens := [cStoredTokStale] }

def cDBEmpty : AuthDB := { users := [], tokens := [] }

def cExpiredPayload : Payload := { sub := some "u1", type := "refresh", exp := 10 }

def cMismatchPayload : Payload := { sub := some "u1", type := "access", exp := 100000 }

def cUser3 : User := { id := "u1", email := "m@x.com", tenantId := "t1" }

def cUser3Inactive : User :=
  { id := "u2", email := "n@x.com", tenantId := "t1", isActive := false }

def cMagicData : MagicLinkData :=
  { userId := "u1", email := "m@x.com", ipAddress := "203.0.113.9" }

def cMagicDataInactive : MagicLinkData :=
  { userId := "u2", email := "n@x.com", ipAddress := "203.0.113.9" }

def cCache3 : Cache := [(magicKey "tok", cMagicData)]

def cCache3i : Cache := [(magicKey "tok", cMagicDataInactive)]

def cTokens5 : ProviderTokens := { accessToken := some "at" }

def cInfo5 : UserInfo := { idField := none, email := some "carol@example.com" }

def cInfo5NoEmail : UserInfo := { idField := some "sub1" }

def cTenant : Tenant := { id := "t1", isActive := true }

def cDB5 : OAuthDB := { users := [], accounts := [], tenants := [cTenant] }

def cUser6 : User := { id := "u6", email := "dana@example.com", tenantId := "t1" }

def cAccount6 : OAuth2Account :=
  { id := "acc6", provider := "google", providerUserId := "sub6", userId := "u6" }

def cDB6 : OAuthDB :=
  { users := [cUser6], accounts := [cAccount6], tenants := [cTenant] }

def cInfo6 : UserInfo := { idField := some "sub6", email := some "other@example.com" }

def cTfa : TwoFactorAuth :=
  { userId := "u1", secretKey := "SEC", backupCodes := ["AAAA1111", "BBBB2222"],
    isEnabled := true }

def cTfaPending : TwoFactorAuth :=
  { userId := "u1", secretKey := "SEC", backupCodes := ["AAAA1111", "BBBB2222"],
    isEnabled := false }

def cTfaDB : List TwoFactorAuth := [cTfa]

def cTfaDBPending : List TwoFactorAuth := [cTfaPending]

/-! ## List lemmas shared by the state-update proofs -/

/-- `find?` after an in-place row update: if the search finds `a` and the
update rewrites exactly the rows matching `km` (which `a` does) to `w`, and
`w` still satisfies the search predicate, the search now finds `w`. -/
theorem find_map_update {α : Type} (p km : α → Bool) (l : List α) (a w : α)
    (h : l.find? p = some a) (hkm : km a = true) (hw : p w = true) :
    (l.map (fun x => if km x then w else x)).find? p = some w := by
  induction l with
  | nil => simp [List.find?] at h
  | cons x xs ih =>
    by_cases hx : p x
    · have hxa : x = a := by
        have := h
        rw [List.find?_cons_of_pos _ hx] at this
        exact Option.some.inj this
      subst hxa
      simp only [List.map_cons, if_pos hkm]
      exact List.find?_cons_of_pos _ hw
    · have h' : xs.find? p = some a := by
        have := h
        rwa [List.find?_cons_of_neg _ hx] at this
      by_cases hk : km x
      · simp only [List.map_cons, if_pos hk]
        exact List.find?_cons_of_pos _ hw
      · simp only [List.map_cons, if_neg hk]
        rw [List.find?_cons_of_neg _ hx]
        exact ih h'

/-- `find?` over an appended row: when the original list has no match and the
new row matches, the search finds the new row. -/
theorem find_append_of_none {α : Type} (p : α → Bool) (l : List α) (w : α)
    (h : l.find? p = none) (hw : p w = true) :
    (l ++ [w]).find? p = some w := by
  induction l with
  | nil =>
    simp only [List.nil_append]
    exact List.find?_cons_of_pos _ hw
  | cons x xs ih =>
    have hx : ¬ p x := by
      intro hpx
      rw [List.find?_cons_of_pos _ hpx] at h
      exact Option.noConfusion h
    have h' : xs.find? p = none := by
      have := h
      rwa [List.find?_cons_of_neg _ hx] at this
    simpa [List.cons_append, List.find?_cons_of_neg _ hx] using ih h'

/-- Removing a present element by `filter` strictly shrinks the list. -/
theorem length_filter_ne_lt (l : List String) (a : String) (h : a ∈ l) :
    (l.filter (fun c => c != a)).length < l.length := by
  induction l with
  | nil => cases h
  | cons x xs ih =>
    by_cases hx : x = a
    · subst hx
      have hff : (x != x) = false := by simp
      simp only [List.filter_cons, hff]
      exact Nat.lt_succ_of_le (List.length_filter_le _ _)
    · have hmem : a ∈ xs := by
        cases h with
        | head => exact absurd rfl hx
        | tail _ h' => exact h'
      have htt : (x != a) = true := by simp [hx]
      simp only [List.filter_cons, htt, if_pos, List.length_cons]
      exact Nat.succ_lt_succ (ih hmem)

/-- The removed element is gone from the filtered list. -/
theorem not_mem_filter_ne (l : List String) (a : String) :
    a ∉ l.filter (fun c => c != a) := by
  intro hmem
  have := List.of_mem_filter hmem
  simp at this

/-- A row produced by `update2fa` is an old row or the written row. -/
theorem mem_update2fa (db : List TwoFactorAuth) (w r' : TwoFactorAuth)
    (h : r' ∈ update2fa db w) : r' ∈ db ∨ r' = w := by
  unfold update2fa at h
  obtain ⟨x, hx, hfx⟩ := List.mem_map.mp h
  by_cases hid : (x.userId == w.userId) = true
  · right
    rw [if_pos hid] at hfx
    exact hfx.symm
  · left
    rw [if_neg hid] at hfx
    exact hfx ▸ hx

/-- Deleting a cache key makes a further `get` of that key miss. -/
theorem cacheGet_delete (c : Cache) (key : String) :
    cacheGet (cacheDelete c key) key = none := by
  unfold cacheGet cacheDelete
  rw [List.find?_eq_none.mpr]
  · rfl
  · intro kv hkv
    have hne := List.of_mem_filter hkv
    simp only [bne_iff_ne, ne_eq] at hne
    simp [hne]

/-- Verification succeeds on a well-signed, unexpired token of the expected
type. -/
theorem verify_token_ok (p : Payload) (ty : String) (now : Time)
    (hty : p.type = ty) (hexp : now < p.exp) :
    verify_token (.signed p) ty now = .ok p := by
  have hd : jwtDecode (.signed p) now = .ok p := by
    show (if p.exp ≤ now then Except.error JwtError.expiredSignature else Except.ok p) = .ok p
    rw [if_neg (not_le.mpr hexp)]
  unfold verify_token
  rw [hd]
  simp [hty]

/-- When the stored-token lookup misses, `refresh_attempt` errors with an
unchanged database, whatever the signature check did. -/
theorem refresh_attempt_of_lookup_none (db : AuthDB) (raw : RawToken)
    (now : Time) (h : refreshLookup db.tokens raw = none) :
    ∃ e, refresh_attempt db raw now = (db, .error e) := by
  unfold refresh_attempt
  rcases hv : verify_token raw "refresh" now with e | payload
  · exact ⟨e, by simp only [hv]⟩
  · cases hs : optFalsy payload.sub with
    | true =>
      exact ⟨.authError "Invalid token payload", by simp only [hv, hs, if_true]⟩
    | false =>
      refine ⟨.authError "Invalid or expired refresh token", ?_⟩
      simp only [hv, hs, h, Bool.false_eq_true, if_false]

/-- When the stored token is past its expiry, `refresh_attempt` errors with
an unchanged database. -/
theorem refresh_attempt_of_expired (db : AuthDB) (raw : RawToken) (now : Time)
    (dbToken : AuthToken) (hl : refreshLookup db.tokens raw = some dbToken)
    (he : dbToken.is_expired now = true) :
    ∃ e, refresh_attempt db raw now = (db, .error e) := by
  unfold refresh_attempt
  rcases hv : verify_token raw "refresh" now with e | payload
  · exact ⟨e, by simp only [hv]⟩
  · cases hs : optFalsy payload.sub with
    | true =>
      exact ⟨.authError "Invalid token payload", by simp only [hv, hs, if_true]⟩
    | false =>
      refine ⟨.authError "Invalid or expired refresh token", ?_⟩
      simp only [hv, hs, hl, he, Bool.false_eq_true, if_false, if_true]

/-! ## The claims -/

/-- C1: a wrong-password `authenticate_user` call commits an incremented
failed-attempt counter for the principal; the call reaching the threshold of
5 commits a lockout expiry of now + 30 minutes; while the lockout expiry is
in the future every call fails with the account-locked error regardless of
the supplied password; once the expiry is past, a correct password
authenticates again and resets counter and lockout. -/
theorem C1_failed_attempts_lockout
    (vp : String → String → Bool) (db : AuthDB) (email password : String)
    (now : Time) (user : User)
    (hfind : findUserByEmail db.users email = some user)
    (hlock : lockActive user now = false)
    (hpw : user.verify_password vp password = false) :
    (authenticate_user vp db email password now).2 =
      .error (.authError "Invalid credentials")
    ∧ findUserByEmail (authenticate_user vp db email password now).1.users email =
        some (if user.failedLoginAttempts + 1 ≥ 5 then
          { user with failedLoginAttempts := user.failedLoginAttempts + 1,
                      lockedUntil := some (now + 30 * 60) }
        else { user with failedLoginAttempts := user.failedLoginAttempts + 1 })
    ∧ (∀ (db' : AuthDB) (email' pw' : String) (now' : Time) (u' : User),
        findUserByEmail db'.users email' = some u' →
        lockActive u' now' = true →
        (authenticate_user vp db' email' pw' now').2 =
          .error (.authError "Account is temporarily locked"))
    ∧ (∀ (db' : AuthDB) (email' pw' : String) (now' : Time) (u' : User),
        findUserByEmail db'.users email' = some u' →
        lockActive u' now' = false →
        u'.verify_password vp pw' = true →
        (authenticate_user vp db' email' pw' now').2 =
          .ok { u' with failedLoginAttempts := 0, lockedUntil := none }) := by
  have hpe := List.find?_some hfind
  refine ⟨?_, ?_, ?_, ?_⟩
  · simp only [authenticate_user, hfind, hlock, hpw, Bool.false_eq_true,
      if_false, Bool.not_false, if_true]
  · simp only [authenticate_user, hfind, hlock, hpw, Bool.false_eq_true,
      if_false, Bool.not_false, if_true]
    exact find_map_update _ _ db.users user _ hfind (by simp)
      (by by_cases h5 : user.failedLoginAttempts + 1 ≥ 5
          · rw [if_pos h5]; exact hpe
          · rw [if_neg h5]; exact hpe)
  · intro db' email' pw' now' u' hfind' hlock'
    simp only [authenticate_user, hfind', hlock', if_true]
  · intro db' email' pw' now' u' hfind' hlock' hpw'
    simp only [authenticate_user, hfind', hlock', hpw', Bool.false_eq_true,
      if_false, Bool.not_true]

/-- Witness for C1 at a concrete state: a fifth consecutive failure locks
the account for 30 minutes and a locked account rejects even the correct
password. -/
theorem C1_failed_attempts_lockout_witness :
    (authenticate_user cVp cDB1 "a@x.com" "bad" 0).2 =
      .error (.authError "Invalid credentials")
    ∧ findUserByEmail (authenticate_user cVp cDB1 "a@x.com" "bad" 0).1.users "a@x.com" =
        some (if cUser1.failedLoginAttempts + 1 ≥ 5 then
          { cUser1 with failedLoginAttempts := cUser1.failedLoginAttempts + 1,
                        lockedUntil := some (0 + 30 * 60) }
        else { cUser1 with failedLoginAttempts := cUser1.failedLoginAttempts + 1 })
    ∧ (∀ (db' : AuthDB) (email' pw' : String) (now' : Time) (u' : User),
        findUserByEmail db'.users email' = some u' →
        lockActive u' now' = true →
        (authenticate_user cVp db' email' pw' now').2 =
          .error (.authError "Account is temporarily locked"))
    ∧ (∀ (db' : AuthDB) (email' pw' : String) (now' : Time) (u' : User),
        findUserByEmail db'.users email' = some u' →
        lockActive u' now' = false →
        u'.verify_password cVp pw' = true →
        (authenticate_user cVp db' email' pw' now').2 =
          .ok { u' with failedLoginAttempts := 0, lockedUntil := none }) :=
  C1_failed_attempts_lockout cVp cDB1 "a@x.com" "bad" 0 cUser1
    (by decide) (by decide) (by decide)

/-- C2: `refresh_access_token` fails (with no committed change and no new
access token) whenever the non-revoked stored-refresh-token lookup misses —
which covers absent and revoked records — or the stored record is past its
expiry; on a well-signed unexpired refresh token whose non-revoked stored
record is current and whose principal is active, it returns a fresh access
token whose subject is that principal and commits the record's last-used
time. -/
theorem C2_refresh_token_lifecycle :
    (∀ (db : AuthDB) (raw : RawToken) (now : Time),
      refreshLookup db.tokens raw = none →
      refresh_access_token db raw now =
        (db, .error (.authError "Token refresh failed")))
    ∧ (∀ (db : AuthDB) (raw : RawToken) (now : Time) (dbToken : AuthToken),
      refreshLookup db.tokens raw = some dbToken →
      dbToken.is_expired now = true →
      refresh_access_token db raw now =
        (db, .error (.authError "Token refresh failed")))
    ∧ (∀ (db : AuthDB) (p : Payload) (now : Time) (dbToken : AuthToken) (user : User),
      p.type = "refresh" →
      now < p.exp →
      optFalsy p.sub = false →
      refreshLookup db.tokens (.signed p) = some dbToken →
      dbToken.is_expired now = false →
      findUserById db.users (pyStr p.sub) = some user →
      user.isActive = true →
      (refresh_access_token db (.signed p) now).2 =
        .ok { accessToken := create_access_token (some user.id) now,
              refreshToken := .signed p,
              expiresIn := access_token_expire * 60 }
      ∧ refreshLookup (refresh_access_token db (.signed p) now).1.tokens (.signed p) =
          some { dbToken with lastUsedAt := some now }) := by
  refine ⟨?_, ?_, ?_⟩
  · intro db raw now hnone
    obtain ⟨e, he⟩ := refresh_attempt_of_lookup_none db raw now hnone
    unfold refresh_access_token
    rw [he]
  · intro db raw now dbToken hl hexp
    obtain ⟨e, he⟩ := refresh_attempt_of_expired db raw now dbToken hl hexp
    unfold refresh_access_token
    rw [he]
  · intro db p now dbToken user hty hexp hsub hl hnexp hfind hact
    have hv := verify_token_ok p "refresh" now hty hexp
    have hatt : refresh_attempt db (.signed p) now =
        ({ db with tokens := db.tokens.map (fun t =>
             if t.id == dbToken.id then { dbToken with lastUsedAt := some now } else t) },
         .ok { accessToken := create_access_token (some user.id) now,
               refreshToken := .signed p,
               expiresIn := access_token_expire * 60 }) := by
      unfold refresh_attempt
      simp only [hv, hsub, hl, hnexp, hfind, hact, Bool.false_eq_true, if_false,
        Bool.not_true]
    have hres : refresh_access_token db (.signed p) now =
        ({ db with tokens := db.tokens.map (fun t =>
             if t.id == dbToken.id then { dbToken with lastUsedAt := some now } else t) },
         .ok { accessToken := create_access_token (some user.id) now,
               refreshToken := .signed p,
               expiresIn := access_token_expire * 60 }) := by
      unfold refresh_access_token
      rw [hatt]
    refine ⟨by rw [hres], ?_⟩
    rw [hres]
    exact find_map_update _ _ db.tokens dbToken _ hl (by simp)
      (by have hp := List.find?_some hl; exact hp)

/-- Witness for C2 at concrete states: a revoked record, a stale record and
a current record of an active principal. -/
theorem C2_refresh_token_lifecycle_witness :
    refresh_access_token cDB2r cRefreshTok 50 =
      (cDB2r, .error (.authError "Token refresh failed"))
    ∧ refresh_access_token cDB2s cRefreshTok 50 =
      (cDB2s, .error (.authError "Token refresh failed"))
    ∧ ((refresh_access_token cDB2 cRefreshTok 50).2 =
        .ok { accessToken := create_access_token (some cUser1.id) 50,
              refreshToken := cRefreshTok,
              expiresIn := access_token_expire * 60 }
      ∧ refreshLookup (refresh_access_token cDB2 cRefreshTok 50).1.tokens cRefreshTok =
          some { cStoredTok with lastUsedAt := some 50 }) :=
  ⟨C2_refresh_token_lifecycle.1 cDB2r cRefreshTok 50 (by decide),
   C2_refresh_token_lifecycle.2.1 cDB2s cRefreshTok 50 cStoredTokStale
     (by decide) (by decide),
   C2_refresh_token_lifecycle.2.2 cDB2 cRefreshPayload 50 cStoredTok cUser1
     (by decide) (by decide) (by decide) (by decide) (by decide) (by decide)
     (by decide)⟩

/-- C9 (amended): when the storage commit fails, `revoke_token` returns
`False` and `revoke_all_user_tokens` returns `0`, each leaving the database
unchanged — the uncommitted mutation is never reported as a successful
revocation — but the returned value is the same one a successful call
returns when no token matches, not a distinct failure signal. -/
theorem C9_storage_failure_swallowed :
    ∀ (db : AuthDB) (raw : RawToken) (userId : String),
      revoke_token db false raw userId = (db, false)
      ∧ revoke_all_user_tokens db false userId = (db, 0) := by
  intro db raw userId
  constructor
  · unfold revoke_token
    rcases h : db.tokens.find? (fun t => t.tokenHash == raw &&
        t.userId == userId && t.tokenType == "refresh") with _ | dbToken
    · simp only [h]
    · simp only [h, Bool.false_eq_true, if_false]
  · unfold revoke_all_user_tokens
    simp

/-- Counterexample to C9 as stated: with a matching non-revoked token in
store and the commit failing, `revoke_token` returns the same value (`false`)
as a successful call on a store with no matching token, and
`revoke_all_user_tokens` likewise returns the same value (`0`) — the storage
failure is not distinguishable from a successful no-match outcome. -/
theorem C9_counterexample :
    cDB2.tokens.find? (fun t => t.tokenHash == cRefreshTok &&
        t.userId == "u1" && t.tokenType == "refresh") = some cStoredTok
    ∧ (revoke_token cDB2 false cRefreshTok "u1").2 =
        (revoke_token cDBEmpty true cRefreshTok "u1").2
    ∧ (revoke_token cDB2 false cRefreshTok "u1").1 = cDB2
    ∧ (revoke_all_user_tokens cDB2 false "u1").2 =
        (revoke_all_user_tokens cDBEmpty true "u1").2 := by
  refine ⟨by decide, by decide, by decide, by decide⟩

/-- C4 (amended): `verify_token` yields three pairwise-distinct failure
values — expired, type mismatch, and malformed/forged — but all on the one
`AuthenticationError` class, distinguished only by message; and
`refresh_access_token` collapses every failure into the single generic
`AuthenticationError "Token refresh failed"`, so a caller of refresh cannot
tell them apart. -/
theorem C4_verify_token_failure_taxonomy :
    (∀ (p : Payload) (ty : String) (now : Time), p.exp ≤ now →
      verify_token (.signed p) ty now = .error (.authError "Token has expired"))
    ∧ (∀ (s ty : String) (now : Time),
      verify_token (.malformed s) ty now = .error (.authError "Invalid token"))
    ∧ (∀ (p : Payload) (ty : String) (now : Time), now < p.exp → p.type ≠ ty →
      verify_token (.signed p) ty now = .error (.authError "Invalid token type"))
    ∧ (AppError.authError "Token has expired" ≠ .authError "Invalid token"
       ∧ AppError.authError "Token has expired" ≠ .authError "Invalid token type"
       ∧ AppError.authError "Invalid token type" ≠ .authError "Invalid token")
    ∧ (∀ (db : AuthDB) (raw : RawToken) (now : Time) (e : AppError),
      (refresh_access_token db raw now).2 = .error e →
      e = .authError "Token refresh failed") := by
  refine ⟨?_, ?_, ?_, ⟨by decide, by decide, by decide⟩, ?_⟩
  · intro p ty now hle
    have hd : jwtDecode (.signed p) now = .error .expiredSignature := by
      show (if p.exp ≤ now then Except.error JwtError.expiredSignature
            else Except.ok p) = .error .expiredSignature
      rw [if_pos hle]
    unfold verify_token
    rw [hd]
  · intro s ty now
    rfl
  · intro p ty now hexp hne
    have hd : jwtDecode (.signed p) now = .ok p := by
      show (if p.exp ≤ now then Except.error JwtError.expiredSignature
            else Except.ok p) = .ok p
      rw [if_neg (not_le.mpr hexp)]
    unfold verify_token
    rw [hd]
    simp [hne]
  · intro db raw now e h
    unfold refresh_access_token at h
    rcases ha : refresh_attempt db raw now with ⟨db', r⟩
    rw [ha] at h
    rcases r with e' | resp
    · simpa using h.symm
    · simp at h

/-- Witness for C4 at concrete tokens: the three distinct verification
failures, and the generic error a refresh caller receives. -/
theorem C4_verify_token_failure_taxonomy_witness :
    verify_token (.signed cExpiredPayload) "refresh" 100 =
      .error (.authError "Token has expired")
    ∧ verify_token (.malformed "forged") "refresh" 100 =
      .error (.authError "Invalid token")
    ∧ verify_token (.signed cMismatchPayload) "refresh" 100 =
      .error (.authError "Invalid token type")
    ∧ AppError.authError "Token has expired" ≠ .authError "Invalid token"
    ∧ AppError.authError "Token refresh failed" = .authError "Token refresh failed" :=
  ⟨C4_verify_token_failure_taxonomy.1 cExpiredPayload "refresh" 100 (by decide),
   C4_verify_token_failure_taxonomy.2.1 "forged" "refresh" 100,
   C4_verify_token_failure_taxonomy.2.2.1 cMismatchPayload "refresh" 100
     (by decide) (by decide),
   C4_verify_token_failure_taxonomy.2.2.2.1.1,
   C4_verify_token_failure_taxonomy.2.2.2.2 cDBEmpty (.malformed "forged") 100
     (.authError "Token refresh failed") (by decide)⟩

/-- Counterexample to C4 as stated: a caller of refresh receives the
identical outcome for an expired refresh token and for a forged token, so
the distinction needed to choose retry-with-refresh versus force-re-login
does not survive `refresh_access_token`. -/
theorem C4_counterexample :
    refresh_access_token cDBEmpty (.signed cExpiredPayload) 100 =
      refresh_access_token cDBEmpty (.malformed "forged") 100
    ∧ (refresh_access_token cDBEmpty (.signed cExpiredPayload) 100).2 =
      .error (.authError "Token refresh failed") := by
  refine ⟨by decide, by decide⟩

/-- C3 (amended): a successful magic-link redemption deletes the token from
the cache before returning, so of two redemptions performed one after the
other at most one succeeds and the second fails with the invalid-or-expired
error; redemption fails, authenticating nobody, when the token is absent or
expired or the referenced principal is inactive.  However the read and the
delete are separate cache operations, not one atomic read-and-delete, so two
redemptions interleaved between the read and the delete can both succeed. -/
theorem C3_magic_link_single_use (c : Cache) (users : List User) (token : String) :
    (∀ u, (verify_magic_link c users token).2 = .ok u →
      cacheGet (verify_magic_link c users token).1 (magicKey token) = none
      ∧ (verify_magic_link (verify_magic_link c users token).1 users token).2 =
          .error (.authError "Invalid or expired magic link"))
    ∧ (cacheGet c (magicKey token) = none →
      verify_magic_link c users token =
        (c, .error (.authError "Invalid or expired magic link")))
    ∧ (∀ d user, cacheGet c (magicKey token) = some d →
      findUserById users d.userId = some user → user.isActive = false →
      verify_magic_link c users token =
        (c, .error (.authError "Invalid or expired magic link")))
    ∧ (∃ (c' : Cache) (us : List User) (tok : String) (sched : List Bool) (u : User),
      (runSchedule us tok sched c' .start .start).2.1 = .finished (.ok u)
      ∧ (runSchedule us tok sched c' .start .start).2.2 = .finished (.ok u)) := by
  have herr : ∀ c'' : Cache, cacheGet c'' (magicKey token) = none →
      verify_magic_link c'' users token =
        (c'', .error (.authError "Invalid or expired magic link")) := by
    intro c'' h
    unfold verify_magic_link
    rw [h]
  refine ⟨?_, herr c, ?_, ⟨cCache3, [cUser3], "tok", [true, false, true, false],
    cUser3, rfl, rfl⟩⟩
  · intro u hok
    have hdel : (verify_magic_link c users token).1 =
        cacheDelete c (magicKey token) := by
      unfold verify_magic_link at hok ⊢
      rcases hg : cacheGet c (magicKey token) with _ | d
      · simp [hg] at hok
      · simp only [hg] at hok ⊢
        rcases hf : findUserById users d.userId with _ | user
        · simp [hf] at hok
        · simp only [hf] at hok ⊢
          cases ha : user.isActive with
          | false => simp [ha] at hok
          | true => simp [ha]
    have hmiss : cacheGet (verify_magic_link c users token).1 (magicKey token) = none := by
      rw [hdel]
      exact cacheGet_delete c (magicKey token)
    exact ⟨hmiss, by rw [herr _ hmiss]⟩
  · intro d user hg hf ha
    unfold verify_magic_link
    simp only [hg, hf, ha, Bool.not_false, if_true]

/-- Witness for C3 at concrete states: a successful redemption deletes the
token and the sequential second redemption fails; an absent token and an
inactive principal are rejected. -/
theorem C3_magic_link_single_use_witness :
    (cacheGet (verify_magic_link cCache3 [cUser3] "tok").1 (magicKey "tok") = none
      ∧ (verify_magic_link (verify_magic_link cCache3 [cUser3] "tok").1 [cUser3] "tok").2 =
          .error (.authError "Invalid or expired magic link"))
    ∧ verify_magic_link [] [cUser3] "tok" =
        ([], .error (.authError "Invalid or expired magic link"))
    ∧ verify_magic_link cCache3i [cUser3Inactive] "tok" =
        (cCache3i, .error (.authError "Invalid or expired magic link"))
    ∧ (∃ (c' : Cache) (us : List User) (tok : String) (sched : List Bool) (u : User),
      (runSchedule us tok sched c' .start .start).2.1 = .finished (.ok u)
      ∧ (runSchedule us tok sched c' .start .start).2.2 = .finished (.ok u)) :=
  ⟨(C3_magic_link_single_use cCache3 [cUser3] "tok").1 cUser3 (by decide),
   (C3_magic_link_single_use [] [cUser3] "tok").2.1 (by decide),
   (C3_magic_link_single_use cCache3i [cUser3Inactive] "tok").2.2.1
     cMagicDataInactive cUser3Inactive (by decide) (by decide) (by decide),
   (C3_magic_link_single_use cCache3 [cUser3] "tok").2.2.2⟩

/-- Counterexample to C3 as stated: two concurrent redemptions of the same
token, each reading before either deletes, both succeed — the deletion is
not atomic with the read, so "at most one of two redemptions succeeds"
fails for this interleaving. -/
theorem C3_counterexample :
    (runSchedule [cUser3] "tok" [true, false, true, false] cCache3 .start .start).2.1 =
      .finished (.ok cUser3)
    ∧ (runSchedule [cUser3] "tok" [true, false, true, false] cCache3 .start .start).2.2 =
      .finished (.ok cUser3) := ⟨rfl, rfl⟩

/-- C5: the guard meant to reject a provider response without a subject id
does not fire, because `str(user_info.get('id'))` turns a missing id into
the truthy string `"None"`: with no subject id but an email present,
`authenticate_with_code` proceeds and creates a principal and a
`FederatedIdentity` whose provider subject id is the literal string
`"None"`, instead of failing with `AuthenticationError`.  A missing email
is rejected as specified. -/
theorem C5_missing_subject_id_not_rejected :
    (authenticate_with_code cDB5 "google" cTokens5 cInfo5 "t1" 0 "u-new" "a-new").2 =
      .ok { id := "u-new", email := "carol@example.com", tenantId := "t1",
            hashedPassword := none, isEmailVerified := true }
    ∧ pairLookup (authenticate_with_code cDB5 "google" cTokens5 cInfo5 "t1" 0
        "u-new" "a-new").1.accounts "google" "None" =
      some { id := "a-new", provider := "google", providerUserId := "None",
             providerEmail := some "carol@example.com",
             accessToken := some "at", userId := "u-new" }
    ∧ (authenticate_with_code cDB5 "google" cTokens5 cInfo5NoEmail "t1" 0
        "u2" "a2").2 =
      .error (.authError "Incomplete user information from provider") := by
  refine ⟨by decide, by decide, by decide⟩

/-- C7: `verify_2fa_setup` with a code that does not verify against the
pending secret within the ±1-step window returns `False` with the stored
state unchanged; and across every `TOTPService` operation, an enabled row
can only arise from a previously enabled row of the same principal — except
through a `verify_2fa_setup` whose code verifies, which is the sole
transition into the enabled state. -/
theorem C7_enabled_only_by_correct_confirmation :
    (∀ (otp : String → Int → String) (db : List TwoFactorAuth)
       (uid code : String) (step : Int) (tfa : TwoFactorAuth),
      find2fa db uid = some tfa →
      verify_totp_code otp tfa.secretKey code step = false →
      verify_2fa_setup otp db uid code step = (db, .ok false))
    ∧ (∀ (users : List User) (db : List TwoFactorAuth) (uid sk : String)
       (codes : List String) (r' : TwoFactorAuth),
      r' ∈ (setup_2fa users db uid sk codes).1 → r'.isEnabled = true →
      ∃ r, r ∈ db ∧ r.isEnabled = true ∧ r.userId = r'.userId)
    ∧ (∀ (otp : String → Int → String) (db : List TwoFactorAuth)
       (uid code : String) (step : Int) (r' : TwoFactorAuth),
      r' ∈ (disable_2fa otp db uid code step).1 → r'.isEnabled = true →
      ∃ r, r ∈ db ∧ r.isEnabled = true ∧ r.userId = r'.userId)
    ∧ (∀ (otp : String → Int → String) (db : List TwoFactorAuth)
       (uid code : String) (step : Int) (now : Time) (r' : TwoFactorAuth),
      r' ∈ (verify_2fa_login otp db uid code step now).1 → r'.isEnabled = true →
      ∃ r, r ∈ db ∧ r.isEnabled = true ∧ r.userId = r'.userId)
    ∧ (∀ (otp : String → Int → String) (db : List TwoFactorAuth)
       (uid code : String) (step : Int) (newCodes : List String) (r' : TwoFactorAuth),
      r' ∈ (regenerate_backup_codes otp db uid code step newCodes).1 →
      r'.isEnabled = true →
      ∃ r, r ∈ db ∧ r.isEnabled = true ∧ r.userId = r'.userId)
    ∧ (∀ (otp : String → Int → String) (db : List TwoFactorAuth)
       (uid code : String) (step : Int) (r' : TwoFactorAuth),
      r' ∈ (verify_2fa_setup otp db uid code step).1 → r'.isEnabled = true →
      (∃ r, r ∈ db ∧ r.isEnabled = true ∧ r.userId = r'.userId)
      ∨ (∃ tfa, find2fa db uid = some tfa
          ∧ verify_totp_code otp tfa.secretKey code step = true
          ∧ r' = { tfa with isEnabled := true }))
    ∧ (∀ (otp : String → Int → String) (db : List TwoFactorAuth)
       (uid code : String) (step : Int) (tfa : TwoFactorAuth),
      find2fa db uid = some tfa →
      verify_totp_code otp tfa.secretKey code step = true →
      verify_2fa_setup otp db uid code step =
        (update2fa db { tfa with isEnabled := true }, .ok true)) := by
  refine ⟨?_, ?_, ?_, ?_, ?_, ?_, ?_⟩
  · intro otp db uid code step tfa hfind hcode
    unfold verify_2fa_setup
    simp only [hfind, hcode, Bool.false_eq_true, if_false]
  · intro users db uid sk codes r' hmem hen
    unfold setup_2fa at hmem
    rcases hfu : findUserById users uid with _ | u
    · simp only [hfu] at hmem
      exact ⟨r', hmem, hen, rfl⟩
    · simp only [hfu] at hmem
      rcases hf2 : find2fa db uid with _ | existing
      · simp only [hf2] at hmem
        rcases List.mem_append.mp hmem with h | h
        · exact ⟨r', h, hen, rfl⟩
        · rw [List.mem_singleton.mp h] at hen
          simp at hen
      · simp only [hf2] at hmem
        rcases mem_update2fa _ _ _ hmem with h | h
        · exact ⟨r', h, hen, rfl⟩
        · rw [h] at hen
          simp at hen
  · intro otp db uid code step r' hmem hen
    unfold disable_2fa at hmem
    rcases hf2 : find2fa db uid with _ | tfa
    · simp only [hf2] at hmem
      exact ⟨r', hmem, hen, rfl⟩
    · simp only [hf2] at hmem
      cases he : tfa.isEnabled with
      | false =>
        simp only [he, Bool.not_false, if_true] at hmem
        exact ⟨r', hmem, hen, rfl⟩
      | true =>
        simp only [he, Bool.not_true, Bool.false_eq_true, if_false] at hmem
        by_cases hv : (verify_totp_code otp tfa.secretKey code step
            || (verify_backup_code tfa.backupCodes code).1) = true
        · simp only [hv, if_true] at hmem
          rcases mem_update2fa _ _ _ hmem with h | h
          · exact ⟨r', h, hen, rfl⟩
          · rw [h] at hen
            simp at hen
        · simp only [hv, if_false] at hmem
          exact ⟨r', hmem, hen, rfl⟩
  · intro otp db uid code step now r' hmem hen
    unfold verify_2fa_login at hmem
    rcases hf2 : find2faEnabled db uid with _ | tfa
    · simp only [hf2] at hmem
      exact ⟨r', hmem, hen, rfl⟩
    · have hp := List.find?_some hf2
      have htm := List.mem_of_find?_eq_some hf2
      have hten : tfa.isEnabled = true := by
        have := hp
        simp only [Bool.and_eq_true] at this
        exact this.2
      simp only [hf2] at hmem
      by_cases hv : verify_totp_code otp tfa.secretKey code step = true
      · simp only [hv, if_true] at hmem
        rcases mem_update2fa _ _ _ hmem with h | h
        · exact ⟨r', h, hen, rfl⟩
        · exact ⟨tfa, htm, hten, by rw [h]⟩
      · simp only [hv, if_false] at hmem
        by_cases hb : (verify_backup_code tfa.backupCodes code).1 = true
        · simp only [hb, if_true] at hmem
          rcases mem_update2fa _ _ _ hmem with h | h
          · exact ⟨r', h, hen, rfl⟩
          · exact ⟨tfa, htm, hten, by rw [h]⟩
        · simp only [hb, if_false] at hmem
          exact ⟨r', hmem, hen, rfl⟩
  · intro otp db uid code step newCodes r' hmem hen
    unfold regenerate_backup_codes at hmem
    rcases hf2 : find2faEnabled db uid with _ | tfa
    · simp only [hf2] at hmem
      exact ⟨r', hmem, hen, rfl⟩
    · have hp := List.find?_some hf2
      have htm := List.mem_of_find?_eq_some hf2
      have hten : tfa.isEnabled = true := by
        have := hp
        simp only [Bool.and_eq_true] at this
        exact this.2
      simp only [hf2] at hmem
      by_cases hv : verify_totp_code otp tfa.secretKey code step = true
      · simp only [hv, Bool.not_true, Bool.false_eq_true, if_false] at hmem
        rcases mem_update2fa _ _ _ hmem with h | h
        · exact ⟨r', h, hen, rfl⟩
        · exact ⟨tfa, htm, hten, by rw [h]⟩
      · have hv' : verify_totp_code otp tfa.secretKey code step = false :=
          Bool.eq_false_iff.mpr hv
        simp only [hv', Bool.not_false, if_true] at hmem
        exact ⟨r', hmem, hen, rfl⟩
  · intro otp db uid code step r' hmem hen
    unfold verify_2fa_setup at hmem
    rcases hf2 : find2fa db uid with _ | tfa
    · simp only [hf2] at hmem
      exact Or.inl ⟨r', hmem, hen, rfl⟩
    · simp only [hf2] at hmem
      by_cases hv : verify_totp_code otp tfa.secretKey code step = true
      · simp only [hv, if_true] at hmem
        rcases mem_update2fa _ _ _ hmem with h | h
        · exact Or.inl ⟨r', h, hen, rfl⟩
        · exact Or.inr ⟨tfa, rfl, hv, h⟩
      · simp only [hv, if_false] at hmem
        exact Or.inl ⟨r', hmem, hen, rfl⟩
  · intro otp db uid code step tfa hfind hcode
    unfold verify_2fa_setup
    simp only [hfind, hcode, if_true]

/-- Witness for C7 at concrete states: a wrong confirmation code leaves the
pending row disabled; no other operation produces an enabled row without a
prior one; a correct confirmation code enables. -/
theorem C7_enabled_only_by_correct_confirmation_witness :
    verify_2fa_setup cOtp cTfaDBPending "u1" "NOPE" 0 = (cTfaDBPending, .ok false)
    ∧ (∃ r, r ∈ cTfaDB ∧ r.isEnabled = true ∧ r.userId = cTfa.userId)
    ∧ (∃ r, r ∈ cTfaDB ∧ r.isEnabled = true ∧ r.userId = cTfa.userId)
    ∧ (∃ r, r ∈ cTfaDB ∧ r.isEnabled = true ∧ r.userId = cTfa.userId)
    ∧ (∃ r, r ∈ cTfaDB ∧ r.isEnabled = true ∧ r.userId = cTfa.userId)
    ∧ ((∃ r, r ∈ cTfaDB ∧ r.isEnabled = true ∧ r.userId = cTfa.userId)
      ∨ (∃ tfa, find2fa cTfaDB "zzz" = some tfa
          ∧ verify_totp_code cOtp tfa.secretKey "SEC0" 0 = true
          ∧ cTfa = { tfa with isEnabled := true }))
    ∧ verify_2fa_setup cOtp cTfaDBPending "u1" "SEC0" 0 =
        (update2fa cTfaDBPending { cTfaPending with isEnabled := true }, .ok true) :=
  ⟨C7_enabled_only_by_correct_confirmation.1 cOtp cTfaDBPending "u1" "NOPE" 0
     cTfaPending (by decide) (by decide),
   C7_enabled_only_by_correct_confirmation.2.1 [] cTfaDB "zzz" "S" [] cTfa
     (by exact List.mem_singleton.mpr rfl) (by decide),
   C7_enabled_only_by_correct_confirmation.2.2.1 cOtp cTfaDB "zzz" "C" 0 cTfa
     (by exact List.mem_singleton.mpr rfl) (by decide),
   C7_enabled_only_by_correct_confirmation.2.2.2.1 cOtp cTfaDB "zzz" "C" 0 5 cTfa
     (by exact List.mem_singleton.mpr rfl) (by decide),
   C7_enabled_only_by_correct_confirmation.2.2.2.2.1 cOtp cTfaDB "zzz" "C" 0 ["N"]
     cTfa (by exact List.mem_singleton.mpr rfl) (by decide),
   C7_enabled_only_by_correct_confirmation.2.2.2.2.2.1 cOtp cTfaDB "zzz" "SEC0" 0
     cTfa (by exact List.mem_singleton.mpr rfl) (by decide),
   C7_enabled_only_by_correct_confirmation.2.2.2.2.2.2 cOtp cTfaDBPending "u1"
     "SEC0" 0 cTfaPending (by decide) (by decide)⟩

/-- C8: a login verification that succeeds via a backup code commits a
backup-code list from which exactly the consumed (normalised) code has been
removed — every other code is retained, the list strictly shrinks, the
last-used time is updated — and any later login attempt with the same code
that does not pass TOTP verification is rejected. -/
theorem C8_backup_code_consumed
    (otp : String → Int → String) (db : List TwoFactorAuth)
    (userId code : String) (step : Int) (now : Time) (tfa : TwoFactorAuth)
    (hfind : find2faEnabled db userId = some tfa)
    (htotp : verify_totp_code otp tfa.secretKey code step = false)
    (hmem : pyStrip (pyUpper code) ∈ tfa.backupCodes) :
    (verify_2fa_login otp db userId code step now).2 = true
    ∧ find2faEnabled (verify_2fa_login otp db userId code step now).1 userId =
        some { tfa with
          backupCodes := tfa.backupCodes.filter (fun c => c != pyStrip (pyUpper code)),
          lastUsedAt := some now }
    ∧ pyStrip (pyUpper code) ∉
        tfa.backupCodes.filter (fun c => c != pyStrip (pyUpper code))
    ∧ (tfa.backupCodes.filter (fun c => c != pyStrip (pyUpper code))).length <
        tfa.backupCodes.length
    ∧ (∀ c ∈ tfa.backupCodes, c ≠ pyStrip (pyUpper code) →
        c ∈ tfa.backupCodes.filter (fun c => c != pyStrip (pyUpper code)))
    ∧ (∀ (step' : Int) (now' : Time),
        verify_totp_code otp tfa.secretKey code step' = false →
        (verify_2fa_login otp (verify_2fa_login otp db userId code step now).1
            userId code step' now').2 = false) := by
  have hc : tfa.backupCodes.contains (pyStrip (pyUpper code)) = true :=
    List.elem_iff.mpr hmem
  have hb : verify_backup_code tfa.backupCodes code =
      (true, tfa.backupCodes.filter (fun c => c != pyStrip (pyUpper code))) := by
    unfold verify_backup_code
    simp only [hc, if_true]
  have hres : verify_2fa_login otp db userId code step now =
      (update2fa db { tfa with
          backupCodes := tfa.backupCodes.filter (fun c => c != pyStrip (pyUpper code)),
          lastUsedAt := some now }, true) := by
    unfold verify_2fa_login
    simp only [hfind, htotp, Bool.false_eq_true, if_false, hb, if_true]
  have hfu : find2faEnabled (update2fa db { tfa with
      backupCodes := tfa.backupCodes.filter (fun c => c != pyStrip (pyUpper code)),
      lastUsedAt := some now }) userId =
      some { tfa with
        backupCodes := tfa.backupCodes.filter (fun c => c != pyStrip (pyUpper code)),
        lastUsedAt := some now } :=
    find_map_update _ _ db _ _ hfind (by simp)
      (by have hp := List.find?_some hfind; exact hp)
  have hnotmem := not_mem_filter_ne tfa.backupCodes (pyStrip (pyUpper code))
  refine ⟨by rw [hres], by rw [hres]; exact hfu, hnotmem,
    length_filter_ne_lt _ _ hmem, ?_, ?_⟩
  · intro c hcmem hcne
    exact List.mem_filter.mpr ⟨hcmem, by simpa using hcne⟩
  · intro step' now' htotp'
    have hc2 : (tfa.backupCodes.filter
        (fun c => c != pyStrip (pyUpper code))).contains (pyStrip (pyUpper code)) = false := by
      cases hcc : (tfa.backupCodes.filter
          (fun c => c != pyStrip (pyUpper code))).contains (pyStrip (pyUpper code)) with
      | false => rfl
      | true => exact absurd (List.elem_iff.mp hcc) hnotmem
    have hb2 : verify_backup_code
        (tfa.backupCodes.filter (fun c => c != pyStrip (pyUpper code))) code =
        (false, tfa.backupCodes.filter (fun c => c != pyStrip (pyUpper code))) := by
      unfold verify_backup_code
      simp only [hc2, Bool.false_eq_true, if_false]
    rw [hres]
    show (verify_2fa_login otp (update2fa db { tfa with
        backupCodes := tfa.backupCodes.filter (fun c => c != pyStrip (pyUpper code)),
        lastUsedAt := some now }) userId code step' now').2 = false
    unfold verify_2fa_login
    simp only [hfu, htotp', Bool.false_eq_true, if_false, hb2, if_true]

/-- Witness for C8 at a concrete state: consuming the backup code
`"AAAA1111"` (supplied in lower case) shrinks the stored set and the same
code is rejected afterwards. -/
theorem C8_backup_code_consumed_witness :
    (verify_2fa_login cOtp cTfaDB "u1" "aaaa1111" 0 7).2 = true
    ∧ find2faEnabled (verify_2fa_login cOtp cTfaDB "u1" "aaaa1111" 0 7).1 "u1" =
        some { cTfa with
          backupCodes := cTfa.backupCodes.filter (fun c => c != pyStrip (pyUpper "aaaa1111")),
          lastUsedAt := some 7 }
    ∧ pyStrip (pyUpper "aaaa1111") ∉
        cTfa.backupCodes.filter (fun c => c != pyStrip (pyUpper "aaaa1111"))
    ∧ (cTfa.backupCodes.filter (fun c => c != pyStrip (pyUpper "aaaa1111"))).length <
        cTfa.backupCodes.length
    ∧ (∀ c ∈ cTfa.backupCodes, c ≠ pyStrip (pyUpper "aaaa1111") →
        c ∈ cTfa.backupCodes.filter (fun c => c != pyStrip (pyUpper "aaaa1111")))
    ∧ (∀ (step' : Int) (now' : Time),
        verify_totp_code cOtp cTfa.secretKey "aaaa1111" step' = false →
        (verify_2fa_login cOtp (verify_2fa_login cOtp cTfaDB "u1" "aaaa1111" 0 7).1
            "u1" "aaaa1111" step' now').2 = false) :=
  C8_backup_code_consumed cOtp cTfaDB "u1" "aaaa1111" 0 7 cTfa
    (by decide) (by decide) (by decide)

/-- After writing row `w` (keyed by the user id of the row `a` found for
`uid`), the enabled-row lookup for `uid` finds `w` whenever `w` is enabled. -/
theorem find2faEnabled_update2fa (db : List TwoFactorAuth) (uid : String)
    (a w : TwoFactorAuth) (h : db.find? (fun r => r.userId == uid) = some a)
    (hwid : w.userId = a.userId) (hwen : w.isEnabled = true) :
    find2faEnabled (update2fa db w) uid = some w := by
  have haid : a.userId = uid := by
    have hq := List.find?_some h
    exact eq_of_beq hq
  induction db with
  | nil => simp [List.find?] at h
  | cons x xs ih =>
    by_cases hx : (x.userId == uid) = true
    · have hfx : List.find? (fun r => r.userId == uid) (x :: xs) = some x :=
        List.find?_cons_of_pos xs hx
      have hxa : x = a := Option.some.inj (hfx.symm.trans h)
      subst hxa
      unfold find2faEnabled update2fa
      simp only [List.map_cons]
      rw [if_pos (by simp [hwid])]
      exact List.find?_cons_of_pos _ (by simp [hwid, haid, hwen])
    · have hfx : List.find? (fun r => r.userId == uid) (x :: xs) =
          List.find? (fun r => r.userId == uid) xs :=
        List.find?_cons_of_neg xs (by simpa using hx)
      have h' : xs.find? (fun r => r.userId == uid) = some a := hfx.symm.trans h
      have hxw : (x.userId == w.userId) = false := by
        rw [hwid, haid]
        exact Bool.eq_false_iff.mpr hx
      unfold find2faEnabled update2fa
      simp only [List.map_cons]
      rw [if_neg (by simp [hxw])]
      have hstep : List.find? (fun r => r.userId == uid && r.isEnabled)
          (x :: List.map (fun y => if y.userId == w.userId then w else y) xs) =
          List.find? (fun r => r.userId == uid && r.isEnabled)
            (List.map (fun y => if y.userId == w.userId then w else y) xs) :=
        List.find?_cons_of_neg _ (by simp [Bool.eq_false_iff.mpr hx])
      rw [hstep]
      exact ih h'

/-- C10: disabling 2FA authorised by a backup code flips only the enabled
flag — the stored backup-code list is untouched, unlike login verification —
so after the credential is re-enabled by a correct confirmation code, the
very same backup code still verifies a login. -/
theorem C10_disable_keeps_backup_codes
    (otp : String → Int → String) (db : List TwoFactorAuth)
    (userId code : String) (step : Int) (tfa : TwoFactorAuth)
    (hfind : find2fa db userId = some tfa)
    (hen : tfa.isEnabled = true)
    (hmem : pyStrip (pyUpper code) ∈ tfa.backupCodes) :
    (disable_2fa otp db userId code step).2 = true
    ∧ find2fa (disable_2fa otp db userId code step).1 userId =
        some { tfa with isEnabled := false }
    ∧ ({ tfa with isEnabled := false } : TwoFactorAuth).backupCodes =
        tfa.backupCodes
    ∧ (∀ (code2 : String) (step2 : Int),
        verify_totp_code otp tfa.secretKey code2 step2 = true →
        (verify_2fa_setup otp (disable_2fa otp db userId code step).1
            userId code2 step2).2 = .ok true
        ∧ (∀ (step3 : Int) (now3 : Time),
            verify_totp_code otp tfa.secretKey code step3 = false →
            (verify_2fa_login otp
                (verify_2fa_setup otp (disable_2fa otp db userId code step).1
                  userId code2 step2).1
                userId code step3 now3).2 = true)) := by
  have hc : tfa.backupCodes.contains (pyStrip (pyUpper code)) = true :=
    List.elem_iff.mpr hmem
  have hb : verify_backup_code tfa.backupCodes code =
      (true, tfa.backupCodes.filter (fun c => c != pyStrip (pyUpper code))) := by
    unfold verify_backup_code
    simp only [hc, if_true]
  have hres : disable_2fa otp db userId code step =
      (update2fa db { tfa with isEnabled := false }, true) := by
    unfold disable_2fa
    simp only [hfind, hen, Bool.not_true, Bool.false_eq_true, if_false, hb,
      Bool.or_true, if_true]
  have hfu1 : find2fa (update2fa db { tfa with isEnabled := false }) userId =
      some { tfa with isEnabled := false } :=
    find_map_update _ _ db _ _ hfind (by simp)
      (by have hp := List.find?_some hfind; exact hp)
  refine ⟨by rw [hres], by rw [hres]; exact hfu1, rfl, ?_⟩
  intro code2 step2 hcode2
  have hsetup : verify_2fa_setup otp (update2fa db { tfa with isEnabled := false })
      userId code2 step2 =
      (update2fa (update2fa db { tfa with isEnabled := false })
        { tfa with isEnabled := true }, .ok true) := by
    unfold verify_2fa_setup
    simp only [hfu1, hcode2, if_true]
  have hfu2 : find2faEnabled
      (update2fa (update2fa db { tfa with isEnabled := false })
        { tfa with isEnabled := true }) userId =
      some { tfa with isEnabled := true } :=
    find2faEnabled_update2fa _ _ { tfa with isEnabled := false } _ hfu1 rfl rfl
  constructor
  · rw [hres]
    show (verify_2fa_setup otp (update2fa db { tfa with isEnabled := false })
        userId code2 step2).2 = .ok true
    rw [hsetup]
  · intro step3 now3 htotp3
    rw [hres]
    show (verify_2fa_login otp
        (verify_2fa_setup otp (update2fa db { tfa with isEnabled := false })
          userId code2 step2).1 userId code step3 now3).2 = true
    rw [hsetup]
    show (verify_2fa_login otp
        (update2fa (update2fa db { tfa with isEnabled := false })
          { tfa with isEnabled := true }) userId code step3 now3).2 = true
    unfold verify_2fa_login
    simp only [hfu2, htotp3, Bool.false_eq_true, if_false, hb, if_true]

/-- Witness for C10 at a concrete state: disabling with backup code
`"BBBB2222"` keeps both stored backup codes; after re-enabling with a correct
TOTP code, the same backup code still logs in. -/
theorem C10_disable_keeps_backup_codes_witness :
    (disable_2fa cOtp cTfaDB "u1" "BBBB2222" 0).2 = true
    ∧ find2fa (disable_2fa cOtp cTfaDB "u1" "BBBB2222" 0).1 "u1" =
        some { cTfa with isEnabled := false }
    ∧ ({ cTfa with isEnabled := false } : TwoFactorAuth).backupCodes =
        cTfa.backupCodes
    ∧ ((verify_2fa_setup cOtp (disable_2fa cOtp cTfaDB "u1" "BBBB2222" 0).1
          "u1" "SEC5" 5).2 = .ok true
      ∧ (∀ (step3 : Int) (now3 : Time),
          verify_totp_code cOtp cTfa.secretKey "BBBB2222" step3 = false →
          (verify_2fa_login cOtp
              (verify_2fa_setup cOtp (disable_2fa cOtp cTfaDB "u1" "BBBB2222" 0).1
                "u1" "SEC5" 5).1
              "u1" "BBBB2222" step3 now3).2 = true)) :=
  ⟨(C10_disable_keeps_backup_codes cOtp cTfaDB "u1" "BBBB2222" 0 cTfa
      (by decide) (by decide) (by decide)).1,
   (C10_disable_keeps_backup_codes cOtp cTfaDB "u1" "BBBB2222" 0 cTfa
      (by decide) (by decide) (by decide)).2.1,
   (C10_disable_keeps_backup_codes cOtp cTfaDB "u1" "BBBB2222" 0 cTfa
      (by decide) (by decide) (by decide)).2.2.1,
   (C10_disable_keeps_backup_codes cOtp cTfaDB "u1" "BBBB2222" 0 cTfa
      (by decide) (by decide) (by decide)).2.2.2 "SEC5" 5 (by decide)⟩

/-- Every successful `authenticate_with_code` leaves a `FederatedIdentity`
for (provider, subject id) linked to the returned principal. -/
theorem auth_code_link (db : OAuthDB) (providerName : String)
    (tokens : ProviderTokens) (info : UserInfo) (tenantId : String)
    (now : Time) (nuid naid : String) (db1 : OAuthDB) (u : User)
    (h : authenticate_with_code db providerName tokens info tenantId now nuid naid =
      (db1, .ok u)) :
    ∃ a, pairLookup db1.accounts providerName (pyStr info.idField) = some a
      ∧ a.userId = u.id := by
  unfold authenticate_with_code at h
  cases hat : optFalsy tokens.accessToken with
  | true =>
    simp only [hat, if_true] at h
    simp at h
  | false =>
    simp only [hat, Bool.false_eq_true, if_false] at h
    cases hguard : (pyStr info.idField == "" || optFalsy info.email) with
    | true =>
      simp only [hguard, if_true] at h
      simp at h
    | false =>
      simp only [hguard, Bool.false_eq_true, if_false] at h
      rcases hp : pairLookup db.accounts providerName (pyStr info.idField) with _ | acct
      · simp only [hp] at h
        rcases hfe : findUserByEmail db.users (optStr info.email) with _ | user
        · simp only [hfe] at h
          rcases hten : db.tenants.find? (fun t => t.id == tenantId) with _ | tenant
          · simp only [hten] at h
            simp at h
          · simp only [hten] at h
            cases hta : tenant.isActive with
            | false =>
              simp only [hta, Bool.not_false, if_true] at h
              simp at h
            | true =>
              simp only [hta, Bool.not_true, Bool.false_eq_true, if_false] at h
              rw [Prod.mk.injEq] at h
              obtain ⟨hdb, hok⟩ := h
              refine ⟨{ id := naid, provider := providerName, providerUserId := pyStr info.idField, providerEmail := some (optStr info.email), providerUsername := pyOrOpt info.login info.username, accessToken := tokens.accessToken, refreshToken := tokens.refreshToken, expiresAt := Option.map (fun secs => now + secs) tokens.expiresIn, userId := nuid }, ?_, ?_⟩
              · rw [← hdb]
                exact find_append_of_none _ db.accounts _ hp (by simp)
              · rw [← Except.ok.inj hok]
        · simp only [hfe] at h
          rw [Prod.mk.injEq] at h
          obtain ⟨hdb, hok⟩ := h
          refine ⟨{ id := naid, provider := providerName, providerUserId := pyStr info.idField, providerEmail := some (optStr info.email), providerUsername := pyOrOpt info.login info.username, accessToken := tokens.accessToken, refreshToken := tokens.refreshToken, expiresAt := Option.map (fun secs => now + secs) tokens.expiresIn, userId := user.id }, ?_, ?_⟩
          · rw [← hdb]
            exact find_append_of_none _ db.accounts _ hp (by simp)
          · rw [← Except.ok.inj hok]
      · simp only [hp] at h
        rcases hfu : findUserById db.users acct.userId with _ | user
        · simp only [hfu] at h
          simp at h
        · simp only [hfu] at h
          cases hact : user.isActive with
          | false =>
            simp only [hact, Bool.not_false, if_true] at h
            simp at h
          | true =>
            simp only [hact, Bool.not_true, Bool.false_eq_true, if_false] at h
            rw [Prod.mk.injEq] at h
            obtain ⟨hdb, hok⟩ := h
            have hfu' : db.users.find? (fun w => w.id == acct.userId) = some user := hfu
            have hq := List.find?_some hfu'
            have h1 : user.id = acct.userId := eq_of_beq hq
            refine ⟨{ acct with accessToken := tokens.accessToken, refreshToken := tokens.refreshToken, expiresAt := (match tokens.expiresIn with | some secs => some (now + secs) | none => acct.expiresAt) }, ?_, ?_⟩
            · rw [← hdb]
              exact find_map_update _ _ db.accounts acct _ hp (by simp)
                (by have hq2 := List.find?_some hp; exact hq2)
            · rw [← Except.ok.inj hok]
              exact h1.symm

/-- C6: when a `FederatedIdentity` for (provider, subject id) exists,
`authenticate_with_code` returns the principal linked to it — with no
hypothesis on any email and no new account row (count and user table
unchanged) — and a second call with the same (provider, subject id) returns
the same principal id while creating no second identity for the pair;
email-based linking is reached only when no pair match exists (it sits in
the `none` branch of the pair lookup). -/
theorem C6_provider_subject_linkage_idempotent :
    (∀ (db : OAuthDB) (providerName : String) (tokens : ProviderTokens)
       (info : UserInfo) (tenantId : String) (now : Time) (nuid naid : String)
       (acct : OAuth2Account) (user : User),
      optFalsy tokens.accessToken = false →
      (pyStr info.idField == "") = false →
      optFalsy info.email = false →
      pairLookup db.accounts providerName (pyStr info.idField) = some acct →
      findUserById db.users acct.userId = some user →
      user.isActive = true →
      (authenticate_with_code db providerName tokens info tenantId now nuid naid).2 =
        .ok user
      ∧ (authenticate_with_code db providerName tokens info tenantId now nuid naid).1.users =
        db.users
      ∧ (authenticate_with_code db providerName tokens info tenantId now nuid
          naid).1.accounts.length = db.accounts.length
      ∧ ∃ a, pairLookup (authenticate_with_code db providerName tokens info tenantId
          now nuid naid).1.accounts providerName (pyStr info.idField) = some a
          ∧ a.userId = acct.userId)
    ∧ (∀ (db db1 : OAuthDB) (providerName : String) (tokens tokens2 : ProviderTokens)
       (info info2 : UserInfo) (tenantId tenantId2 : String) (now now2 : Time)
       (nuid naid nuid2 naid2 : String) (u u' : User),
      authenticate_with_code db providerName tokens info tenantId now nuid naid =
        (db1, .ok u) →
      optFalsy tokens2.accessToken = false →
      pyStr info2.idField = pyStr info.idField →
      (pyStr info.idField == "") = false →
      optFalsy info2.email = false →
      findUserById db1.users u.id = some u' →
      u'.isActive = true →
      (authenticate_with_code db1 providerName tokens2 info2 tenantId2 now2 nuid2
        naid2).2 = .ok u'
      ∧ u'.id = u.id
      ∧ (authenticate_with_code db1 providerName tokens2 info2 tenantId2 now2 nuid2
          naid2).1.accounts.length = db1.accounts.length) := by
  constructor
  · intro db providerName tokens info tenantId now nuid naid acct user hat hpid
      hem hp hfu hact
    have hguard : (pyStr info.idField == "" || optFalsy info.email) = false := by
      rw [hpid, hem]
      rfl
    have hres : authenticate_with_code db providerName tokens info tenantId now nuid naid =
        ({ db with accounts := db.accounts.map (fun a => if a.id == acct.id then { acct with accessToken := tokens.accessToken, refreshToken := tokens.refreshToken, expiresAt := (match tokens.expiresIn with | some secs => some (now + secs) | none => acct.expiresAt) } else a) }, .ok user) := by
      unfold authenticate_with_code
      simp only [hat, Bool.false_eq_true, if_false, hguard, hp, hfu, hact,
        Bool.not_true]
    have hfu' : db.users.find? (fun w => w.id == acct.userId) = some user := hfu
    have hq := List.find?_some hfu'
    have h1 : user.id = acct.userId := eq_of_beq hq
    obtain ⟨a, hpa, hau⟩ := auth_code_link db providerName tokens info tenantId
      now nuid naid _ user hres
    refine ⟨by rw [hres], by rw [hres],
      by rw [hres]; exact List.length_map _ _, ?_⟩
    rw [hres]
    exact ⟨a, hpa, hau.trans h1⟩
  · intro db db1 providerName tokens tokens2 info info2 tenantId tenantId2 now
      now2 nuid naid nuid2 naid2 u u' h1 hat2 hpid2 hpid hem2 hfu' hact'
    obtain ⟨a, hpa, hau⟩ := auth_code_link db providerName tokens info tenantId
      now nuid naid db1 u h1
    have hpa2 : pairLookup db1.accounts providerName (pyStr info2.idField) = some a := by
      rw [hpid2]
      exact hpa
    have hfua : findUserById db1.users a.userId = some u' := by
      rw [hau]
      exact hfu'
    have hguard2 : (pyStr info2.idField == "" || optFalsy info2.email) = false := by
      rw [hpid2, hpid, hem2]
      rfl
    have hres2 : authenticate_with_code db1 providerName tokens2 info2 tenantId2 now2 nuid2 naid2 =
        ({ db1 with accounts := db1.accounts.map (fun x => if x.id == a.id then { a with accessToken := tokens2.accessToken, refreshToken := tokens2.refreshToken, expiresAt := (match tokens2.expiresIn with | some secs => some (now2 + secs) | none => a.expiresAt) } else x) }, .ok u') := by
      unfold authenticate_with_code
      simp only [hat2, Bool.false_eq_true, if_false, hguard2, hpa2, hfua, hact',
        Bool.not_true]
    have hfx : db1.users.find? (fun w => w.id == u.id) = some u' := hfu'
    have hq2 := List.find?_some hfx
    have hid : u'.id = u.id := eq_of_beq hq2
    refine ⟨by rw [hres2], hid, ?_⟩
    rw [hres2]
    exact List.length_map _ _

/-- Witness for C6 at a concrete state: an existing (google, sub6) identity
linked to an active principal is returned unchanged by a first and a second
call, with the account count constant. -/
theorem C6_provider_subject_linkage_idempotent_witness :
    ((authenticate_with_code cDB6 "google" cTokens5 cInfo6 "t1" 0 "nu" "na").2 =
        .ok cUser6
      ∧ (authenticate_with_code cDB6 "google" cTokens5 cInfo6 "t1" 0 "nu" "na").1.users =
        cDB6.users
      ∧ (authenticate_with_code cDB6 "google" cTokens5 cInfo6 "t1" 0 "nu"
          "na").1.accounts.length = cDB6.accounts.length
      ∧ ∃ a, pairLookup (authenticate_with_code cDB6 "google" cTokens5 cInfo6 "t1" 0
          "nu" "na").1.accounts "google" (pyStr cInfo6.idField) = some a
          ∧ a.userId = cAccount6.userId)
    ∧ ((authenticate_with_code { users := [cUser6], accounts := [{ cAccount6 with accessToken := some "at" }], tenants := [cTenant] } "google" cTokens5 cInfo6 "t1" 5 "nu2" "na2").2 = .ok cUser6
      ∧ cUser6.id = cUser6.id
      ∧ (authenticate_with_code { users := [cUser6], accounts := [{ cAccount6 with accessToken := some "at" }], tenants := [cTenant] } "google" cTokens5 cInfo6 "t1" 5 "nu2" "na2").1.accounts.length =
        ({ users := [cUser6], accounts := [{ cAccount6 with accessToken := some "at" }], tenants := [cTenant] } : OAuthDB).accounts.length) :=
  ⟨C6_provider_subject_linkage_idempotent.1 cDB6 "google" cTokens5 cInfo6 "t1" 0
     "nu" "na" cAccount6 cUser6 (by decide) (by decide) (by decide) (by decide)
     (by decide) (by decide),
   C6_provider_subject_linkage_idempotent.2 cDB6
     { users := [cUser6], accounts := [{ cAccount6 with accessToken := some "at" }], tenants := [cTenant] }
     "google" cTokens5 cTokens5 cInfo6 cInfo6 "t1" "t1" 0 5 "nu" "na" "nu2" "na2"
     cUser6 cUser6 (by decide) (by decide) (by decide) (by decide) (by decide)
     (by decide) (by decide)⟩

end FinaiFlow
